import Mathlib

/-!
# Verification of the MTN customer-churn aggregation pipeline

A shallow embedding of `mtn_churn_model.py` (class `MTNChurnAnalysis`).
Numeric cells are rationals (`ℚ`); a pandas `NaN` cell is `Option.none`.
Pandas reductions skip `NaN` (`sum`/`mean`/`count` use only non-null
values), which the `Option`-valued helpers below reproduce.  A whole
numeric column that is `NaN`-producing (a mean of an empty selection, a
division by a zero denominator on floats) is modelled as `Option.none`
where a claim depends on it.

Group order: pandas `groupby` emits one group per distinct non-null key.
We enumerate groups in first-occurrence order (`List.dedup`); pandas
orders keys ascending, which permutes result rows but changes no claimed
quantity.  `sort_values` (an unstable quicksort in pandas) is modelled
with `List.insertionSort`; no claim depends on the order of ties.
-/

/-- Python `round(x, 2)` as used throughout the source (`round(…, 2)` and
pandas `.round(2)`).  Modelled as rounding half away from the nearest
lower value via Mathlib `round` (`⌊x·100 + 1/2⌋ / 100`); Python rounds
ties to even, but no value appearing in any statement below is a tie, so
the two agree on everything proved here. -/
def round2 (q : ℚ) : ℚ := (round (q * 100) : ℤ) / 100

/-- Sum of a numeric column: pandas `sum` skips `NaN` cells. -/
def osum (l : List (Option ℚ)) : ℚ := (l.filterMap id).sum

/-- Mean of a numeric column: pandas `mean` skips `NaN` cells and is
itself `NaN` (here `none`) when no non-null value exists. -/
def omean (l : List (Option ℚ)) : Option ℚ :=
  let v := l.filterMap id
  if v.length = 0 then none else some (v.sum / v.length)

/-- A raw cell of the `Customer_Churn_Status` column: the CSV yields
strings, and the mapping dictionary in `_prepare_data` also carries the
Python booleans `True`/`False` as keys. -/
inductive StatusVal where
  | strv (s : String)
  | boolv (b : Bool)
deriving DecidableEq, Repr

/-- The dictionary passed to `.map` in `_prepare_data`
(`mtn_churn_model.py:72-74`): `Churned → 1, Active → 0, Yes → 1, No → 0,
True → 1, False → 0`; any other key is unmapped (`NaN`). -/
def statusMapDict : StatusVal → Option ℚ
  | .strv s =>
    if s = "Churned" then some 1
    else if s = "Active" then some 0
    else if s = "Yes" then some 1
    else if s = "No" then some 0
    else none
  | .boolv b => if b then some 1 else some 0

/-- `Churn_Binary` for one row:
`df['Customer_Churn_Status'].map({…}).fillna(0)` — a missing status or an
unmapped value falls through `.map` as `NaN` and `.fillna(0)` turns it
into `0`. -/
def churnBinary (v : Option StatusVal) : ℚ :=
  (v.bind statusMapDict).getD 0

/-- One customer record, with the columns the analysis methods touch.
Every cell is optional: `pd.read_csv` turns an empty cell into `NaN`, and
`pd.to_numeric(errors='coerce')` in `_prepare_data` turns an unparsable
numeric cell into `NaN`. -/
structure Row where
  customerId : Option ℕ        -- Customer_ID
  age : Option ℚ               -- Age
  state : Option String        -- State
  device : Option String       -- MTN_Device
  satisfactionRate : Option ℚ  -- Satisfaction_Rate
  tenure : Option ℚ            -- Customer_Tenure_in_months
  unitPrice : Option ℚ         -- Unit_Price
  totalRevenue : Option ℚ      -- Total_Revenue
  subscriptionPlan : Option String  -- Subscription_Plan
  churnStatus : Option StatusVal    -- Customer_Churn_Status
  reason : Option String       -- Reasons_for_Churn (cell; column presence is tracked separately)
deriving DecidableEq, Repr

/-- Sum of the `Churn_Binary` column over a selection of rows. -/
def flagsSum (l : List Row) : ℚ := (l.map fun r => churnBinary r.churnStatus).sum

/-- The selection `df[df['Churn_Binary'] == 1]`. -/
def churnedRows (l : List Row) : List Row :=
  l.filter fun r => churnBinary r.churnStatus = 1

/-- Number of rows whose churn flag is 1 (the spec-side notion of
"churned count", to be compared with the flag sum the code computes). -/
def churnedCount (l : List Row) : ℕ := (churnedRows l).length

/-- The result record built by `calculate_primary_kpis`
(`mtn_churn_model.py:76-111`).  `churn_rate` is `none` on an empty table
(float `0/0 = NaN` under the suppressed numpy warning);
`revenue_risk_percentage` is `none` when total revenue is `0` (float
division yields `NaN` or `±inf`); `avg_satisfaction` is `none` when no
satisfaction value exists. -/
structure PrimaryKpis where
  total_customers : ℕ
  churned_customers : ℤ
  churn_rate : Option ℚ
  revenue_at_risk : ℚ
  total_revenue : ℚ
  revenue_risk_percentage : Option ℚ
  avg_satisfaction : Option ℚ
  active_customers : ℤ
deriving DecidableEq, Repr

/-- `calculate_primary_kpis` on the loaded table.  `int(churned_customers)`
truncates; the flag sum is a nonnegative whole number, so `⌊·⌋` agrees
with Python truncation on every reachable value. -/
def calculate_primary_kpis (rows : List Row) : PrimaryKpis :=
  let total := rows.length
  let churned := flagsSum rows
  let revenue_at_risk := osum ((churnedRows rows).map (·.totalRevenue))
  let total_revenue := osum (rows.map (·.totalRevenue))
  { total_customers := total
    churned_customers := ⌊churned⌋
    churn_rate := if total = 0 then none else some (round2 (churned / total * 100))
    revenue_at_risk := revenue_at_risk
    total_revenue := total_revenue
    revenue_risk_percentage :=
      if total_revenue = 0 then none
      else some (round2 (revenue_at_risk / total_revenue * 100))
    avg_satisfaction := (omean (rows.map (·.satisfactionRate))).map round2
    active_customers := (total : ℤ) - ⌊churned⌋ }

-- ### Grouping (`df.groupby(key)`): one group per distinct non-null key;
-- rows whose key is null belong to no group.

/-- The distinct non-null keys of a grouping, in first-occurrence order. -/
def groupKeys {K : Type} [DecidableEq K] (key : Row → Option K) (rows : List Row) : List K :=
  (rows.filterMap key).dedup

/-- The rows of the group with key `k`. -/
def groupRows {K : Type} [DecidableEq K] (key : Row → Option K) (k : K) (rows : List Row) :
    List Row :=
  rows.filter fun r => key r = some k

/-- `'Customer_ID': 'count'` — pandas `count` counts non-null cells only. -/
def countId (g : List Row) : ℕ := (g.filterMap (·.customerId)).length

/-- Mean of the `Churn_Binary` column of a group: the flag column is never
null (`fillna(0)`), so the denominator is the group size. -/
def groupChurnMean (g : List Row) : ℚ := flagsSum g / g.length

-- ### `satisfaction_churn_analysis` (`mtn_churn_model.py:113-136`)

/-- One row of the satisfaction summary after the `.agg`/`.round(2)` and
the column renaming plus `Churn_Rate * 100` step.  `total_customers`
counts the never-null `Churn_Binary` column, so it is the group size. -/
structure SatSummaryRow where
  total_customers : ℕ
  churned_customers : ℚ
  churn_rate : ℚ
  total_revenue : ℚ
deriving DecidableEq, Repr

/-- The aggregation applied to one satisfaction group: `.round(2)` is
applied to every aggregated column, and only afterwards is the rounded
churn mean scaled by `100`. -/
def satAggRow (g : List Row) : SatSummaryRow :=
  { total_customers := g.length
    churned_customers := round2 (flagsSum g)
    churn_rate := round2 (groupChurnMean g) * 100
    total_revenue := round2 (osum (g.map (·.totalRevenue))) }

/-- `groupby(['Satisfaction_Rate','Churn_Binary']).size().unstack(fill_value=0)`:
per satisfaction value, the number of flag-0 rows and of flag-1 rows. -/
def satisfaction_crosstab (rows : List Row) : List (ℚ × ℕ × ℕ) :=
  (groupKeys (·.satisfactionRate) rows).map fun k =>
    let g := groupRows (·.satisfactionRate) k rows
    (k, (g.filter fun r => churnBinary r.churnStatus = 0).length,
        (g.filter fun r => churnBinary r.churnStatus = 1).length)

/-- The `summary` table of `satisfaction_churn_analysis`. -/
def satisfaction_summary (rows : List Row) : List (ℚ × SatSummaryRow) :=
  (groupKeys (·.satisfactionRate) rows).map fun k =>
    (k, satAggRow (groupRows (·.satisfactionRate) k rows))

/-- Value stored under `analysis_results['satisfaction_analysis']`. -/
structure SatisfactionAnalysis where
  crosstab : List (ℚ × ℕ × ℕ)
  summary : List (ℚ × SatSummaryRow)
deriving DecidableEq, Repr

def satisfaction_churn_analysis (rows : List Row) : SatisfactionAnalysis :=
  { crosstab := satisfaction_crosstab rows, summary := satisfaction_summary rows }

-- ### `geographic_analysis` (`mtn_churn_model.py:138-168`)

/-- One row of the per-state table: `Customer_ID` count, flag sum, flag
mean (rounded, then `* 100`), revenue sum, satisfaction mean. -/
structure GeoRow where
  total_customers : ℕ
  churned_customers : ℚ
  churn_rate : ℚ
  total_revenue : ℚ
  avg_satisfaction : Option ℚ
deriving DecidableEq, Repr

def geoAggRow (g : List Row) : GeoRow :=
  { total_customers := countId g
    churned_customers := round2 (flagsSum g)
    churn_rate := round2 (groupChurnMean g) * 100
    total_revenue := round2 (osum (g.map (·.totalRevenue)))
    avg_satisfaction := (omean (g.map (·.satisfactionRate))).map round2 }

/-- `sort_values('Churn_Rate', ascending=False)` on a keyed table. -/
def sortByRateDesc {A : Type} (rate : A → ℚ) (l : List (String × A)) : List (String × A) :=
  l.insertionSort fun a b => rate b.2 ≤ rate a.2

/-- Value stored under `analysis_results['geographic_analysis']`.
`avg_churn_rate` is `none` when there is no state group (mean of an empty
column is `NaN`). -/
structure GeographicAnalysis where
  state_summary : List (String × GeoRow)
  high_risk_states : List (String × GeoRow)
  avg_churn_rate : Option ℚ
deriving DecidableEq, Repr

def geographic_analysis (rows : List Row) : GeographicAnalysis :=
  let summary := sortByRateDesc (·.churn_rate)
    ((groupKeys (·.state) rows).map fun k => (k, geoAggRow (groupRows (·.state) k rows)))
  let rates := summary.map (·.2.churn_rate)
  let avg : Option ℚ :=
    if rates.length = 0 then none else some (rates.sum / rates.length)
  { state_summary := summary
    high_risk_states :=
      match avg with
      | none => []  -- comparison with NaN selects nothing (and the table is empty anyway)
      | some a => summary.filter fun p => a < p.2.churn_rate
    avg_churn_rate := avg.map round2 }

-- ### `device_performance_analysis` (`mtn_churn_model.py:170-193`)

/-- Per-device (and per-plan) aggregate row: adds the `Unit_Price` mean. -/
structure DeviceRow where
  total_customers : ℕ
  churned_customers : ℚ
  churn_rate : ℚ
  total_revenue : ℚ
  avg_unit_price : Option ℚ
  avg_satisfaction : Option ℚ
deriving DecidableEq, Repr

def deviceAggRow (g : List Row) : DeviceRow :=
  { total_customers := countId g
    churned_customers := round2 (flagsSum g)
    churn_rate := round2 (groupChurnMean g) * 100
    total_revenue := round2 (osum (g.map (·.totalRevenue)))
    avg_unit_price := (omean (g.map (·.unitPrice))).map round2
    avg_satisfaction := (omean (g.map (·.satisfactionRate))).map round2 }

def device_performance_analysis (rows : List Row) : List (String × DeviceRow) :=
  sortByRateDesc (·.churn_rate)
    ((groupKeys (·.device) rows).map fun k => (k, deviceAggRow (groupRows (·.device) k rows)))

-- ### `customer_segmentation_analysis` (`mtn_churn_model.py:195-255`)

/-- `pd.cut(df['Age'], bins=[0,25,35,45,55,100], labels=[…])` with the
pandas default `right=True`, `include_lowest=False`: half-open intervals
`(0,25], (25,35], (35,45], (45,55], (55,100]`; a value outside every
interval (including the left edge `0`) gets no label (`NaN`). -/
def ageGroup (a : Option ℚ) : Option String :=
  match a with
  | none => none
  | some x =>
    if 0 < x ∧ x ≤ 25 then some "18-25"
    else if 25 < x ∧ x ≤ 35 then some "26-35"
    else if 35 < x ∧ x ≤ 45 then some "36-45"
    else if 45 < x ∧ x ≤ 55 then some "46-55"
    else if 55 < x ∧ x ≤ 100 then some "55+"
    else none

/-- `pd.cut(df['Customer_Tenure_in_months'], bins=[0,6,12,24,36,100],
labels=[…])`, same pandas semantics: intervals `(0,6], (6,12], (12,24],
(24,36], (36,100]`; in particular a tenure of exactly `0` is left
unlabelled (`NaN`). -/
def tenureGroup (t : Option ℚ) : Option String :=
  match t with
  | none => none
  | some x =>
    if 0 < x ∧ x ≤ 6 then some "0-6 months"
    else if 6 < x ∧ x ≤ 12 then some "7-12 months"
    else if 12 < x ∧ x ≤ 24 then some "13-24 months"
    else if 24 < x ∧ x ≤ 36 then some "25-36 months"
    else if 36 < x ∧ x ≤ 100 then some "36+ months"
    else none

/-- Per age/tenure-bucket aggregate row (same shape as the per-state one:
`Customer_ID` count, flag sum and mean, revenue sum, satisfaction mean). -/
def segAggTable (key : Row → Option String) (rows : List Row) : List (String × GeoRow) :=
  (groupKeys key rows).map fun k => (k, geoAggRow (groupRows key k rows))

/-- Value stored under `analysis_results['segmentation_analysis']`.  The
plan table carries the `Unit_Price` mean, hence the `DeviceRow` shape. -/
structure SegmentationAnalysis where
  age_analysis : List (String × GeoRow)
  tenure_analysis : List (String × GeoRow)
  plan_analysis : List (String × DeviceRow)
deriving DecidableEq, Repr

def customer_segmentation_analysis (rows : List Row) : SegmentationAnalysis :=
  { age_analysis := segAggTable (fun r => ageGroup r.age) rows
    tenure_analysis := segAggTable (fun r => tenureGroup r.tenure) rows
    plan_analysis :=
      (groupKeys (·.subscriptionPlan) rows).map fun k =>
        (k, deviceAggRow (groupRows (·.subscriptionPlan) k rows)) }

-- ### `churn_reasons_analysis` (`mtn_churn_model.py:257-282`)

/-- `value_counts` over `Reasons_for_Churn` of the churned rows (null
reasons dropped), with the percentage of the whole churned population
(null-reason churned rows included in the denominator).  `value_counts`
sorts by count descending. -/
def churn_reasons_analysis (rows : List Row) : List (String × ℕ × ℚ) :=
  let churned := churnedRows rows
  let reasons := churned.filterMap (·.reason)
  let table := reasons.dedup.map fun s =>
    let c := reasons.count s
    (s, c, round2 ((c : ℚ) / churned.length * 100))
  table.insertionSort fun a b => b.2.1 ≤ a.2.1

-- ### `predictive_analytics` (`mtn_churn_model.py:284-318`)

/-- `df['Total_Revenue'].quantile(0.75)`: linear interpolation on the
ascending non-null revenues; `NaN` (`none`) on an empty column. -/
def quantile75 (l : List ℚ) : Option ℚ :=
  let v := l.insertionSort (· ≤ ·)
  let n := v.length
  if n = 0 then none
  else
    let h : ℚ := (n - 1 : ℕ) * 3 / 4
    let i : ℕ := (⌊h⌋).toNat
    let lo := v.getD i 0
    let hi := v.getD (i + 1) lo
    some (lo + (h - i) * (hi - lo))

/-- `df[df['Customer_Tenure_in_months'] < 6]` — a `NaN` tenure compares
false and is excluded. -/
def newCustomers (rows : List Row) : List Row :=
  rows.filter fun r =>
    match r.tenure with
    | some t => decide (t < 6)
    | none => false

/-- `df[df['Satisfaction_Rate'] <= 2]`. -/
def atRiskCustomers (rows : List Row) : List Row :=
  rows.filter fun r =>
    match r.satisfactionRate with
    | some s => decide (s ≤ 2)
    | none => false

/-- The high-value-at-risk selection: revenue at or above the 0.75
quantile and satisfaction at most 2; when the quantile is `NaN` (empty
revenue column) every comparison is false. -/
def highValueAtRisk (rows : List Row) : List Row :=
  match quantile75 (rows.filterMap (·.totalRevenue)) with
  | none => []
  | some thr =>
    rows.filter fun r =>
      match r.totalRevenue, r.satisfactionRate with
      | some v, some s => decide (thr ≤ v) && decide (s ≤ 2)
      | _, _ => false

structure PredictiveResults where
  at_risk_count : ℕ
  at_risk_revenue : ℚ
  new_customer_churn_rate : ℚ
  high_value_at_risk_count : ℕ
  high_value_at_risk_revenue : ℚ
deriving DecidableEq, Repr

/-- `predictive_analytics`: the new-customer churn rate is the guarded
expression `(mean * 100) if len(new_customers) > 0 else 0`, rounded when
stored. -/
def predictive_analytics (rows : List Row) : PredictiveResults :=
  let nc := newCustomers rows
  let ar := atRiskCustomers rows
  let hv := highValueAtRisk rows
  { at_risk_count := ar.length
    at_risk_revenue := osum (ar.map (·.totalRevenue))
    new_customer_churn_rate :=
      round2 (if nc.length > 0 then groupChurnMean nc * 100 else 0)
    high_value_at_risk_count := hv.length
    high_value_at_risk_revenue := osum (hv.map (·.totalRevenue)) }

-- ### The analyzer state (`self.df`, `self.analysis_results`)

/-- The loaded table `self.df`.  `rows` carries the base columns of every
record; `hasReasonsCol` records whether the optional `Reasons_for_Churn`
column is present in the CSV; `ageGroupCol`/`tenureGroupCol` are the two
derived columns that `customer_segmentation_analysis` assigns onto the
DataFrame itself (`self.df['Age_Group'] = …`), absent until then. -/
structure DataFrame where
  rows : List Row
  hasReasonsCol : Bool
  ageGroupCol : Option (List (Option String))
  tenureGroupCol : Option (List (Option String))
deriving DecidableEq, Repr

/-- The `self.analysis_results` mapping: one optional entry per analysis
name; `none` means the key is absent. -/
structure AnalysisResults where
  primary_kpis : Option PrimaryKpis
  satisfaction_analysis : Option SatisfactionAnalysis
  geographic_analysis : Option GeographicAnalysis
  device_analysis : Option (List (String × DeviceRow))
  segmentation_analysis : Option SegmentationAnalysis
  churn_reasons : Option (List (String × ℕ × ℚ))
  predictive_analytics : Option PredictiveResults
deriving DecidableEq, Repr

/-- The empty mapping created in `__init__`. -/
def AnalysisResults.empty : AnalysisResults :=
  ⟨none, none, none, none, none, none, none⟩

/-- The analyzer instance: `self.df` is `none` before a successful
`load_data`. -/
structure AnalyzerState where
  df : Option DataFrame
  analysis_results : AnalysisResults
deriving DecidableEq, Repr

/-- State after a successful `load_data` (CSV parsing and `_prepare_data`
coercions happen outside the embedding and yield the `Row` cells): a
fresh instance holds the table and the results mapping from `__init__`,
still empty. -/
def loadState (d : DataFrame) : AnalyzerState :=
  { df := some d, analysis_results := AnalysisResults.empty }

-- Each analysis method reads `self.df` and stores its result under its
-- key.  On an unloaded instance (`self.df is None`) every method raises
-- internally, the `except` branch prints, and no key is stored.

def calculate_primary_kpis_op (st : AnalyzerState) : AnalyzerState :=
  match st.df with
  | none => st
  | some d =>
    { st with analysis_results :=
        { st.analysis_results with primary_kpis := some (calculate_primary_kpis d.rows) } }

def satisfaction_churn_analysis_op (st : AnalyzerState) : AnalyzerState :=
  match st.df with
  | none => st
  | some d =>
    { st with analysis_results :=
        { st.analysis_results with
            satisfaction_analysis := some (satisfaction_churn_analysis d.rows) } }

def geographic_analysis_op (st : AnalyzerState) : AnalyzerState :=
  match st.df with
  | none => st
  | some d =>
    { st with analysis_results :=
        { st.analysis_results with geographic_analysis := some (geographic_analysis d.rows) } }

def device_performance_analysis_op (st : AnalyzerState) : AnalyzerState :=
  match st.df with
  | none => st
  | some d =>
    { st with analysis_results :=
        { st.analysis_results with device_analysis := some (device_performance_analysis d.rows) } }

/-- `customer_segmentation_analysis` is the one method that also writes
back into `self.df`: it assigns the derived `Age_Group` and
`Tenure_Group` columns before grouping on them. -/
def customer_segmentation_analysis_op (st : AnalyzerState) : AnalyzerState :=
  match st.df with
  | none => st
  | some d =>
    { df := some { d with
        ageGroupCol := some (d.rows.map fun r => ageGroup r.age)
        tenureGroupCol := some (d.rows.map fun r => tenureGroup r.tenure) }
      analysis_results :=
        { st.analysis_results with
            segmentation_analysis := some (customer_segmentation_analysis d.rows) } }

/-- `churn_reasons_analysis` stores its key only when the
`Reasons_for_Churn` column exists; otherwise it prints the warning below
and leaves the mapping untouched. -/
def churn_reasons_analysis_op (st : AnalyzerState) : AnalyzerState :=
  match st.df with
  | none => st
  | some d =>
    if d.hasReasonsCol then
      { st with analysis_results :=
          { st.analysis_results with churn_reasons := some (churn_reasons_analysis d.rows) } }
    else st

def reasonsWarning : String := "Reasons_for_Churn column not found"

def predictive_analytics_op (st : AnalyzerState) : AnalyzerState :=
  match st.df with
  | none => st
  | some d =>
    { st with analysis_results :=
        { st.analysis_results with predictive_analytics := some (predictive_analytics d.rows) } }

/-- `run_complete_analysis` (`mtn_churn_model.py:320-338`): bails out with
`False` when no table is loaded; otherwise runs every analysis in order
and returns `True` regardless of individual skips.  The `List String`
output collects the warnings printed along the way. -/
def run_complete_analysis (st : AnalyzerState) : AnalyzerState × Bool × List String :=
  match st.df with
  | none => (st, false, [])
  | some d =>
    let st1 := calculate_primary_kpis_op st
    let st2 := satisfaction_churn_analysis_op st1
    let st3 := geographic_analysis_op st2
    let st4 := device_performance_analysis_op st3
    let st5 := customer_segmentation_analysis_op st4
    let st6 := churn_reasons_analysis_op st5
    let st7 := predictive_analytics_op st6
    (st7, true, if d.hasReasonsCol then [] else [reasonsWarning])

-- ### Concrete tables used to instantiate the theorems

/-- A row with every cell missing. -/
def blankRow : Row :=
  { customerId := none, age := none, state := none, device := none,
    satisfactionRate := none, tenure := none, unitPrice := none,
    totalRevenue := none, subscriptionPlan := none, churnStatus := none,
    reason := none }

/-- A fully populated sample row (state Lagos, tenure 10, revenue 100). -/
def sampleRow (i : ℕ) (sat : ℚ) (status : String) : Row :=
  { blankRow with
      customerId := some i, state := some "Lagos", device := some "Router",
      satisfactionRate := some sat, tenure := some 10, totalRevenue := some 100,
      subscriptionPlan := some "Prepaid", churnStatus := some (.strv status) }

/-- The spec's 3-row example: satisfaction `[4, 2, 5]`, churn status
`[No, Yes, No]`. -/
def exampleRows : List Row :=
  [sampleRow 1 4 "No", sampleRow 2 2 "Yes", sampleRow 3 5 "No"]

/-- A row with a state but no `Customer_ID`. -/
def noIdRow : Row := { blankRow with state := some "Lagos" }

/-- An active (non-churned) row whose revenue is negative. -/
def negRevenueRow : Row :=
  { blankRow with totalRevenue := some (-5), churnStatus := some (.strv "Active") }

/-- A loaded table without the `Reasons_for_Churn` column. -/
def noReasonsDf : DataFrame :=
  { rows := exampleRows, hasReasonsCol := false, ageGroupCol := none, tenureGroupCol := none }

-- ### Helper lemmas

theorem churnBinary_eq_zero_or_one (v : Option StatusVal) :
    churnBinary v = 0 ∨ churnBinary v = 1 := by
  rcases v with _ | v
  · exact Or.inl rfl
  · rcases v with s | b
    · show (statusMapDict (.strv s)).getD 0 = 0 ∨ (statusMapDict (.strv s)).getD 0 = 1
      have hd : statusMapDict (.strv s) =
          if s = "Churned" then some 1
          else if s = "Active" then some 0
          else if s = "Yes" then some 1
          else if s = "No" then some 0
          else none := rfl
      rw [hd]
      split_ifs <;> simp
    · unfold churnBinary statusMapDict
      cases b <;> simp

theorem flagsSum_cons (r : Row) (l : List Row) :
    flagsSum (r :: l) = churnBinary r.churnStatus + flagsSum l := by
  simp [flagsSum]

theorem flagsSum_eq_churnedCount (l : List Row) :
    flagsSum l = (churnedCount l : ℚ) := by
  induction l with
  | nil => simp [flagsSum, churnedCount, churnedRows]
  | cons r t ih =>
    rcases churnBinary_eq_zero_or_one r.churnStatus with h | h
    · rw [flagsSum_cons, h, zero_add, ih]
      have : churnedCount (r :: t) = churnedCount t := by
        simp [churnedCount, churnedRows, List.filter_cons, h]
      rw [this]
    · rw [flagsSum_cons, h, ih]
      have : churnedCount (r :: t) = churnedCount t + 1 := by
        simp [churnedCount, churnedRows, List.filter_cons, h]
      rw [this]
      push_cast
      ring

theorem flagsSum_nonneg (l : List Row) : 0 ≤ flagsSum l := by
  rw [flagsSum_eq_churnedCount]; positivity

theorem churnedCount_le_length (l : List Row) : churnedCount l ≤ l.length :=
  List.length_filter_le _ _

theorem flagsSum_le_length (l : List Row) : flagsSum l ≤ (l.length : ℚ) := by
  rw [flagsSum_eq_churnedCount]
  exact_mod_cast churnedCount_le_length l

theorem floor_flagsSum (l : List Row) : ⌊flagsSum l⌋ = (churnedCount l : ℤ) := by
  rw [flagsSum_eq_churnedCount]
  exact_mod_cast Int.floor_natCast (churnedCount l)

theorem round2_nonneg {q : ℚ} (h : 0 ≤ q) : 0 ≤ round2 q := by
  unfold round2
  apply div_nonneg _ (by norm_num)
  have h1 : (0 : ℤ) ≤ round (q * 100) := by
    rw [round_eq]
    exact Int.le_floor.mpr (by push_cast; linarith)
  exact_mod_cast h1

theorem round2_le_natCast {q : ℚ} (n : ℕ) (h : q ≤ n) : round2 q ≤ n := by
  unfold round2
  rw [div_le_iff₀ (by norm_num : (0:ℚ) < 100)]
  have h1 : (round (q * 100) : ℚ) ≤ q * 100 + 1/2 := round_le_add_half _
  have h2 : (round (q * 100) : ℤ) ≤ (n : ℤ) * 100 := by
    have h3 : ((round (q * 100) : ℤ) : ℚ) < ((n : ℤ) * 100 : ℤ) + 1 := by
      push_cast
      nlinarith
    have h4 : (round (q * 100) : ℤ) < (n : ℤ) * 100 + 1 := by exact_mod_cast h3
    omega
  calc ((round (q * 100) : ℤ) : ℚ) ≤ (((n : ℤ) * 100 : ℤ) : ℚ) := by exact_mod_cast h2
    _ = (n : ℚ) * 100 := by push_cast; ring

theorem round2_zero : round2 0 = 0 := by
  unfold round2
  rw [round_eq]
  norm_num

theorem groupChurnMean_mem_unit (g : List Row) :
    0 ≤ groupChurnMean g ∧ groupChurnMean g ≤ 1 := by
  unfold groupChurnMean
  rcases Nat.eq_zero_or_pos g.length with h | h
  · rw [h]; norm_num
  · have hl : (0 : ℚ) < g.length := by exact_mod_cast h
    constructor
    · exact div_nonneg (flagsSum_nonneg g) hl.le
    · rw [div_le_one hl]
      exact flagsSum_le_length g

theorem rate_bounds (g : List Row) :
    0 ≤ round2 (groupChurnMean g) * 100 ∧ round2 (groupChurnMean g) * 100 ≤ 100 := by
  obtain ⟨h0, h1⟩ := groupChurnMean_mem_unit g
  constructor
  · have := round2_nonneg h0
    nlinarith
  · have h2 := round2_le_natCast 1 (by exact_mod_cast h1)
    rw [Nat.cast_one] at h2
    nlinarith

theorem osum_cons (x : Option ℚ) (l : List (Option ℚ)) :
    osum (x :: l) = x.getD 0 + osum l := by
  cases x <;> simp [osum]

theorem osum_nonneg {l : List (Option ℚ)} (h : ∀ x ∈ l, ∀ q, x = some q → 0 ≤ q) :
    0 ≤ osum l := by
  induction l with
  | nil => simp [osum]
  | cons x t ih =>
    rw [osum_cons]
    have hx : 0 ≤ x.getD 0 := by
      cases x with
      | none => simp
      | some q => exact h _ (by simp) q rfl
    have ht : 0 ≤ osum t := ih fun y hy q hq => h y (by simp [hy]) q hq
    linarith

/-- Revenue at risk is the part of total revenue carried by churned rows;
with nonnegative revenue cells it cannot exceed the total. -/
theorem risk_le_total (rows : List Row)
    (h : ∀ r ∈ rows, ∀ q, r.totalRevenue = some q → 0 ≤ q) :
    osum ((churnedRows rows).map (·.totalRevenue)) ≤ osum (rows.map (·.totalRevenue)) := by
  induction rows with
  | nil => simp [churnedRows]
  | cons r t ih =>
    have hr : 0 ≤ r.totalRevenue.getD 0 := by
      cases hv : r.totalRevenue with
      | none => simp
      | some q => exact h r (by simp) q hv
    have ht := ih fun y hy q hq => h y (by simp [hy]) q hq
    by_cases hc : churnBinary r.churnStatus = 1
    · have : churnedRows (r :: t) = r :: churnedRows t := by
        simp [churnedRows, List.filter_cons, hc]
      rw [this, List.map_cons, List.map_cons, osum_cons, osum_cons]
      linarith
    · have : churnedRows (r :: t) = churnedRows t := by
        simp [churnedRows, List.filter_cons, hc]
      rw [this, List.map_cons, osum_cons]
      linarith

theorem churnedRows_sublist (rows : List Row) : ∀ r ∈ churnedRows rows, r ∈ rows :=
  fun _ hr => List.mem_of_mem_filter hr

-- ### Grouping lemmas

theorem length_groupRows_eq_count {K : Type} [DecidableEq K]
    (key : Row → Option K) (k : K) (rows : List Row) :
    (groupRows key k rows).length = (rows.filterMap key).count k := by
  induction rows with
  | nil => simp [groupRows]
  | cons r t ih =>
    unfold groupRows at ih ⊢
    rw [List.filter_cons, List.filterMap_cons]
    cases hk : key r with
    | none => simpa using ih
    | some k' =>
      by_cases he : k' = k
      · subst he
        simp [List.count_cons, ih]
      · simp [List.count_cons, ih, he]

theorem sum_dedup_count {K : Type} [DecidableEq K] (L : List K) :
    (L.dedup.map fun k => L.count k).sum = L.length := by
  have hf : L.dedup.toFinset = L.toFinset := by
    apply List.toFinset_eq_iff_perm_dedup.mpr
    rw [List.dedup_idem]
  rw [← List.sum_toFinset _ L.nodup_dedup, hf]
  exact List.sum_toFinset_count_eq_length L

/-- Grouping by a nowhere-missing key partitions the table: the group
sizes add up to the row count. -/
theorem grouping_partitions {K : Type} [DecidableEq K]
    (key : Row → Option K) (rows : List Row) (h : ∀ r ∈ rows, (key r).isSome) :
    ((groupKeys key rows).map fun k => (groupRows key k rows).length).sum = rows.length := by
  have hlen : (rows.filterMap key).length = rows.length := by
    induction rows with
    | nil => simp
    | cons r t ih =>
      cases hk : key r with
      | none =>
        have := h r (by simp)
        rw [hk] at this
        simp at this
      | some k' =>
        simp only [List.filterMap_cons, hk, List.length_cons]
        rw [ih fun y hy => h y (by simp [hy])]
  calc ((groupKeys key rows).map fun k => (groupRows key k rows).length).sum
      = ((rows.filterMap key).dedup.map fun k => (rows.filterMap key).count k).sum := by
        unfold groupKeys
        congr 1
        exact List.map_congr_left fun k _ => length_groupRows_eq_count key k rows
    _ = (rows.filterMap key).length := sum_dedup_count _
    _ = rows.length := hlen

theorem countId_eq_length {g : List Row} (h : ∀ r ∈ g, r.customerId.isSome) :
    countId g = g.length := by
  unfold countId
  induction g with
  | nil => simp
  | cons r t ih =>
    cases hk : r.customerId with
    | none =>
      have := h r (by simp)
      rw [hk] at this
      simp at this
    | some i =>
      simp only [List.filterMap_cons, hk, List.length_cons]
      rw [ih fun y hy => h y (by simp [hy])]

theorem churn_flag_partition (rows : List Row) :
    churnedCount rows + (rows.filter fun r => churnBinary r.churnStatus = 0).length
      = rows.length := by
  induction rows with
  | nil => simp [churnedCount, churnedRows]
  | cons r t ih =>
    rcases churnBinary_eq_zero_or_one r.churnStatus with h | h
    · have h1 : churnedCount (r :: t) = churnedCount t := by
        simp [churnedCount, churnedRows, List.filter_cons, h]
      have h2 : ((r :: t).filter fun r => churnBinary r.churnStatus = 0).length
          = (t.filter fun r => churnBinary r.churnStatus = 0).length + 1 := by
        simp [List.filter_cons, h]
      rw [h1, h2, List.length_cons]
      omega
    · have h1 : churnedCount (r :: t) = churnedCount t + 1 := by
        simp [churnedCount, churnedRows, List.filter_cons, h]
      have h2 : ((r :: t).filter fun r => churnBinary r.churnStatus = 0).length
          = (t.filter fun r => churnBinary r.churnStatus = 0).length := by
        simp [List.filter_cons, h]
      rw [h1, h2, List.length_cons]
      omega

/-- C2: the derived churn flag is always `0` or `1`: `Churned`, `Yes` and
`True` map to `1`; `Active`, `No` and `False` map to `0`; every other or
missing status silently maps to `0`; hence on every table the churned
rows and the flag-0 (active) rows together count the whole table. -/
theorem churn_binary_spec :
    (churnBinary (some (.strv "Churned")) = 1 ∧
     churnBinary (some (.strv "Yes")) = 1 ∧
     churnBinary (some (.boolv true)) = 1 ∧
     churnBinary (some (.strv "Active")) = 0 ∧
     churnBinary (some (.strv "No")) = 0 ∧
     churnBinary (some (.boolv false)) = 0 ∧
     churnBinary none = 0) ∧
    (∀ s : String, s ≠ "Churned" → s ≠ "Active" → s ≠ "Yes" → s ≠ "No" →
      churnBinary (some (.strv s)) = 0) ∧
    (∀ v : Option StatusVal, churnBinary v = 0 ∨ churnBinary v = 1) ∧
    (∀ rows : List Row,
      churnedCount rows + (rows.filter fun r => churnBinary r.churnStatus = 0).length
        = rows.length) := by
  refine ⟨?_, ?_, churnBinary_eq_zero_or_one, churn_flag_partition⟩
  · refine ⟨?_, ?_, ?_, ?_, ?_, ?_, ?_⟩ <;> rfl
  · intro s h1 h2 h3 h4
    show (statusMapDict (.strv s)).getD 0 = 0
    have hd : statusMapDict (.strv s) =
        if s = "Churned" then some 1
        else if s = "Active" then some 0
        else if s = "Yes" then some 1
        else if s = "No" then some 0
        else none := rfl
    rw [hd, if_neg h1, if_neg h2, if_neg h3, if_neg h4]
    rfl

/-- Witness for C2 at concrete inputs: an unmapped status string maps to
`0`, and on the sample table churned plus active rows count all rows. -/
theorem churn_binary_spec_witness :
    churnBinary (some (.strv "Maybe")) = 0 ∧
    churnedCount exampleRows
      + (exampleRows.filter fun r => churnBinary r.churnStatus = 0).length
      = exampleRows.length := by
  have h := churn_binary_spec
  exact ⟨h.2.1 "Maybe" (by decide) (by decide) (by decide) (by decide),
         h.2.2.2 exampleRows⟩

/-- C4 counterexample: `pd.cut` with bins starting at `0` and the default
right-closed intervals leaves a tenure of exactly `0` outside every
bucket (`NaN` label), so it does not bucket to `"0-6 months"`. -/
theorem tenure_zero_not_bucketed :
    ¬ tenureGroup (some 0) = some "0-6 months" := by
  have h : tenureGroup (some 0) = none := by
    unfold tenureGroup
    norm_num
  rw [h]
  simp

/-- C4 (amended): ages `[20, 30, 40, 60]` bucket to
`["18-25", "26-35", "36-45", "55+"]` under edges `0/25/35/45/55/100`;
tenure uses edges `0/6/12/24/36/100` with left-open right-closed bins, so
a tenure of exactly `0` falls in no bucket (it is excluded as missing)
while any tenure in `(0, 6]` buckets to `"0-6 months"`. -/
theorem segmentation_buckets_spec :
    ageGroup (some 20) = some "18-25" ∧
    ageGroup (some 30) = some "26-35" ∧
    ageGroup (some 40) = some "36-45" ∧
    ageGroup (some 60) = some "55+" ∧
    tenureGroup (some 0) = none ∧
    tenureGroup (some 3) = some "0-6 months" ∧
    tenureGroup (some 6) = some "0-6 months" := by
  refine ⟨?_, ?_, ?_, ?_, ?_, ?_, ?_⟩ <;>
    · first
      | (unfold ageGroup; norm_num)
      | (unfold tenureGroup; norm_num)

/-- C9: when the new-customer cohort (tenure below 6 months) is empty,
`predictive_analytics` reports a zero churn rate for it instead of
dividing by zero: the division sits behind the `len(new_customers) > 0`
guard. -/
theorem new_customer_rate_zero_on_empty_cohort (rows : List Row)
    (h : newCustomers rows = []) :
    (predictive_analytics rows).new_customer_churn_rate = 0 := by
  show round2 (if (newCustomers rows).length > 0 then groupChurnMean (newCustomers rows) * 100 else 0) = 0
  rw [h]
  simpa using round2_zero

/-- Witness for C9: a one-row table whose only tenure is 10 months has an
empty new-customer cohort and a zero new-customer churn rate. -/
theorem new_customer_rate_zero_witness :
    (predictive_analytics [sampleRow 1 4 "No"]).new_customer_churn_rate = 0 :=
  new_customer_rate_zero_on_empty_cohort [sampleRow 1 4 "No"] (by decide)

/-- C1: on every non-empty table the KPI summary reports total = row
count, churned = sum of the binary flags (equal to the number of flag-1
rows), churn rate = churned/total × 100 rounded to 2 decimals,
revenue-at-risk = revenue summed over the churned rows, and
active = total − churned. -/
theorem calculate_primary_kpis_spec (rows : List Row) (h : rows ≠ []) :
    (calculate_primary_kpis rows).total_customers = rows.length ∧
    (calculate_primary_kpis rows).churned_customers = (churnedCount rows : ℤ) ∧
    (calculate_primary_kpis rows).churn_rate
      = some (round2 ((churnedCount rows : ℚ) / rows.length * 100)) ∧
    (calculate_primary_kpis rows).revenue_at_risk
      = osum ((churnedRows rows).map (·.totalRevenue)) ∧
    (calculate_primary_kpis rows).active_customers
      = (rows.length : ℤ) - (churnedCount rows : ℤ) := by
  have hne : rows.length ≠ 0 := fun hl => h (List.length_eq_zero.mp hl)
  unfold calculate_primary_kpis
  refine ⟨rfl, floor_flagsSum rows, ?_, rfl, ?_⟩
  · show (if rows.length = 0 then none
        else some (round2 (flagsSum rows / rows.length * 100)))
      = some (round2 ((churnedCount rows : ℚ) / rows.length * 100))
    rw [if_neg hne, flagsSum_eq_churnedCount]
  · show (rows.length : ℤ) - ⌊flagsSum rows⌋ = (rows.length : ℤ) - (churnedCount rows : ℤ)
    rw [floor_flagsSum]

/-- Witness for C1: the spec's 3-row example (satisfaction `[4,2,5]`,
churn `[No,Yes,No]`) yields total = 3, churned = 1, churn rate = 33.33. -/
theorem calculate_primary_kpis_spec_witness :
    (calculate_primary_kpis exampleRows).total_customers = 3 ∧
    (calculate_primary_kpis exampleRows).churned_customers = 1 ∧
    (calculate_primary_kpis exampleRows).churn_rate = some (3333 / 100) := by
  have h := calculate_primary_kpis_spec exampleRows (by decide)
  have hc : churnedCount exampleRows = 1 := by decide
  have hl : exampleRows.length = 3 := by decide
  refine ⟨by rw [h.1, hl], by rw [h.2.1, hc]; rfl, ?_⟩
  rw [h.2.2.1, hc, hl]
  norm_num [round2, round_eq]

/-- C3 counterexample: on the 3-row one-state table the stored per-state
churn rate is `33` (the churn fraction is rounded to 2 decimals by the
aggregation's `.round(2)` *before* the `* 100` scaling), while
churned/total × 100 is `100/3 = 33.33…`; the stored value differs from
the claimed exact one. -/
theorem stored_rate_rounds_before_scaling :
    (geographic_analysis exampleRows).state_summary.map (fun p => (p.1, p.2.churn_rate))
      = [("Lagos", 33)] ∧
    ((churnedCount exampleRows : ℚ) / (exampleRows.length : ℚ)) * 100 ≠ 33 := by
  constructor
  · have hk : groupKeys (fun r => r.state) exampleRows = ["Lagos"] := by decide
    have hg : groupRows (fun r => r.state) "Lagos" exampleRows = exampleRows := by decide
    have hrate : (geoAggRow exampleRows).churn_rate = 33 := by
      show round2 (groupChurnMean exampleRows) * 100 = 33
      have hm : groupChurnMean exampleRows = 1 / 3 := by
        unfold groupChurnMean
        rw [flagsSum_eq_churnedCount]
        norm_num [show churnedCount exampleRows = 1 from by decide,
                  show exampleRows.length = 3 from by decide]
      rw [hm]
      norm_num [round2, round_eq]
    simp [geographic_analysis, sortByRateDesc, hk, hg, List.insertionSort, hrate]
  · norm_num [show churnedCount exampleRows = 1 from by decide,
              show exampleRows.length = 3 from by decide]

/-- C3 (amended): for every non-empty group, in every grouped analysis
shape (satisfaction; state/age/tenure; device/plan), the stored
churn-rate field equals the churn fraction churned/total rounded to two
decimal places and then scaled by 100 — the rounding happens inside the
aggregation, so stored rates have whole-percent granularity and equal
churned/total × 100 exactly only when that fraction needs at most two
decimals. -/
theorem stored_churn_rate_formula (g : List Row) (_h : g ≠ []) :
    (satAggRow g).churn_rate = round2 ((churnedCount g : ℚ) / g.length) * 100 ∧
    (geoAggRow g).churn_rate = round2 ((churnedCount g : ℚ) / g.length) * 100 ∧
    (deviceAggRow g).churn_rate = round2 ((churnedCount g : ℚ) / g.length) * 100 := by
  have hm : groupChurnMean g = (churnedCount g : ℚ) / g.length := by
    unfold groupChurnMean
    rw [flagsSum_eq_churnedCount]
  exact ⟨by show round2 (groupChurnMean g) * 100 = _; rw [hm],
         by show round2 (groupChurnMean g) * 100 = _; rw [hm],
         by show round2 (groupChurnMean g) * 100 = _; rw [hm]⟩

/-- Witness for C3 (amended) on the 3-row sample group. -/
theorem stored_churn_rate_formula_witness :
    (geoAggRow exampleRows).churn_rate
      = round2 ((churnedCount exampleRows : ℚ) / exampleRows.length) * 100 :=
  (stored_churn_rate_formula exampleRows (by decide)).2.1

/-- C5 counterexample: a one-row table whose state is present but whose
`Customer_ID` is missing: the geographic table's customer count (a pandas
`count` of non-null `Customer_ID` cells) sums to 0, not to the 1 row of
the table, even though the group key column has no missing values. -/
theorem group_counts_lose_missing_ids :
    noIdRow.state = some "Lagos" ∧
    ((geographic_analysis [noIdRow]).state_summary.map fun p => p.2.total_customers).sum
      ≠ [noIdRow].length := by
  constructor
  · decide
  · have hk : groupKeys (fun r => r.state) [noIdRow] = ["Lagos"] := by decide
    have hg : groupRows (fun r => r.state) "Lagos" [noIdRow] = [noIdRow] := by decide
    have hc : (geoAggRow [noIdRow]).total_customers = 0 := by decide
    simp [geographic_analysis, sortByRateDesc, hk, hg, List.insertionSort, hc]

/-- C5 (amended): grouping by a nowhere-missing key partitions the table
— the group sizes sum to the row count (this is the customer count of
the satisfaction analysis, whose count column is the never-null churn
flag); the `Customer_ID`-counting analyses (state, device, age, tenure,
plan) report counts summing to the row count provided `Customer_ID` is
also nowhere missing; rows with a missing key belong to no group. -/
theorem grouping_counts_spec (rows : List Row) :
    (∀ key : Row → Option ℚ, (∀ r ∈ rows, (key r).isSome) →
      ((groupKeys key rows).map fun k => (groupRows key k rows).length).sum = rows.length) ∧
    (∀ key : Row → Option String, (∀ r ∈ rows, (key r).isSome) →
      ((groupKeys key rows).map fun k => (groupRows key k rows).length).sum = rows.length ∧
      ((∀ r ∈ rows, r.customerId.isSome) →
        ((groupKeys key rows).map fun k => countId (groupRows key k rows)).sum
          = rows.length)) ∧
    (∀ key : Row → Option String, ∀ k r, r ∈ groupRows key k rows → key r = some k) ∧
    ((∀ r ∈ rows, r.state.isSome) → (∀ r ∈ rows, r.customerId.isSome) →
      ((geographic_analysis rows).state_summary.map fun p => p.2.total_customers).sum
        = rows.length) := by
  have hgen : ∀ {K : Type} [DecidableEq K] (key : Row → Option K),
      (∀ r ∈ rows, (key r).isSome) → (∀ r ∈ rows, r.customerId.isSome) →
      ((groupKeys key rows).map fun k => countId (groupRows key k rows)).sum
        = rows.length := by
    intro K _ key hkey hid
    have : ∀ k ∈ groupKeys key rows,
        countId (groupRows key k rows) = (groupRows key k rows).length := by
      intro k _
      exact countId_eq_length fun r hr => hid r (List.mem_of_mem_filter hr)
    rw [List.map_congr_left this]
    exact grouping_partitions key rows hkey
  refine ⟨fun key hkey => grouping_partitions key rows hkey,
          fun key hkey => ⟨grouping_partitions key rows hkey, hgen key hkey⟩,
          fun key k r hr => by
            have h2 : decide (key r = some k) = true := (List.mem_filter.mp hr).2
            exact of_decide_eq_true h2, ?_⟩
  intro hkey hid
  have hperm :
      List.Perm (geographic_analysis rows).state_summary
        ((groupKeys (fun r => r.state) rows).map
          (fun k => (k, geoAggRow (groupRows (fun r => r.state) k rows)))) := by
    show List.Perm (sortByRateDesc _ _) _
    exact List.perm_insertionSort _ _
  calc ((geographic_analysis rows).state_summary.map fun p => p.2.total_customers).sum
      = (((groupKeys (fun r => r.state) rows).map
            (fun k => (k, geoAggRow (groupRows (fun r => r.state) k rows)))).map
              fun p => p.2.total_customers).sum :=
        ((hperm.map fun p => p.2.total_customers).sum_eq)
    _ = ((groupKeys (fun r => r.state) rows).map
          fun k => countId (groupRows (fun r => r.state) k rows)).sum := by
        rw [List.map_map]
        rfl
    _ = rows.length := hgen (fun r => r.state) hkey hid

/-- Witness for C5 (amended): on the fully populated 3-row table the
per-state customer counts sum to the table's 3 rows. -/
theorem grouping_counts_spec_witness :
    ((geographic_analysis exampleRows).state_summary.map fun p => p.2.total_customers).sum
      = exampleRows.length :=
  (grouping_counts_spec exampleRows).2.2.2 (by decide) (by decide)

/-- C7 counterexample: revenue cells are only coerced to numbers, never
sign-checked, so a table whose single row is active with revenue −5 has
revenue-at-risk 0 but total revenue −5, and revenue-at-risk exceeds the
total. -/
theorem revenue_at_risk_can_exceed_total :
    (calculate_primary_kpis [negRevenueRow]).revenue_at_risk = 0 ∧
    (calculate_primary_kpis [negRevenueRow]).total_revenue = -5 ∧
    ¬ (calculate_primary_kpis [negRevenueRow]).revenue_at_risk
        ≤ (calculate_primary_kpis [negRevenueRow]).total_revenue := by
  have hc : churnedRows [negRevenueRow] = [] := by decide
  have h1 : (calculate_primary_kpis [negRevenueRow]).revenue_at_risk = 0 := by
    show osum ((churnedRows [negRevenueRow]).map (·.totalRevenue)) = 0
    rw [hc]
    rfl
  have h2 : (calculate_primary_kpis [negRevenueRow]).total_revenue = -5 := by
    show osum ([negRevenueRow].map (·.totalRevenue)) = -5
    simp [negRevenueRow, blankRow, osum]
  refine ⟨h1, h2, ?_⟩
  rw [h1, h2]
  norm_num

/-- C7 (amended): every non-empty group's stored churn rate lies in
`[0, 100]` (in each grouped-analysis shape); and provided every revenue
cell is nonnegative, revenue-at-risk is at most total revenue, and when
total revenue is moreover nonzero the revenue-risk percentage is a value
in `[0, 100]`.  (Without the nonnegativity proviso the revenue claims
fail — see the counterexample.) -/
theorem churn_rate_and_revenue_bounds :
    (∀ g : List Row, g ≠ [] →
      (0 ≤ (satAggRow g).churn_rate ∧ (satAggRow g).churn_rate ≤ 100) ∧
      (0 ≤ (geoAggRow g).churn_rate ∧ (geoAggRow g).churn_rate ≤ 100) ∧
      (0 ≤ (deviceAggRow g).churn_rate ∧ (deviceAggRow g).churn_rate ≤ 100)) ∧
    (∀ rows : List Row, (∀ r ∈ rows, ∀ q, r.totalRevenue = some q → 0 ≤ q) →
      (calculate_primary_kpis rows).revenue_at_risk
        ≤ (calculate_primary_kpis rows).total_revenue ∧
      ((calculate_primary_kpis rows).total_revenue ≠ 0 →
        ∃ p, (calculate_primary_kpis rows).revenue_risk_percentage = some p ∧
          0 ≤ p ∧ p ≤ 100)) := by
  constructor
  · intro g _
    have hb := rate_bounds g
    exact ⟨hb, hb, hb⟩
  · intro rows hrev
    have hrisk : (calculate_primary_kpis rows).revenue_at_risk
        = osum ((churnedRows rows).map (·.totalRevenue)) := rfl
    have htot : (calculate_primary_kpis rows).total_revenue
        = osum (rows.map (·.totalRevenue)) := rfl
    have hle : osum ((churnedRows rows).map (·.totalRevenue))
        ≤ osum (rows.map (·.totalRevenue)) := risk_le_total rows hrev
    have hrisk0 : 0 ≤ osum ((churnedRows rows).map (·.totalRevenue)) := by
      apply osum_nonneg
      intro x hx q hq
      obtain ⟨r, hr, hrx⟩ := List.mem_map.mp hx
      exact hrev r (churnedRows_sublist rows r hr) q (hrx ▸ hq)
    have htot0 : 0 ≤ osum (rows.map (·.totalRevenue)) := by
      apply osum_nonneg
      intro x hx q hq
      obtain ⟨r, hr, hrx⟩ := List.mem_map.mp hx
      exact hrev r hr q (hrx ▸ hq)
    refine ⟨by rw [hrisk, htot]; exact hle, ?_⟩
    intro hne
    rw [htot] at hne
    have htpos : 0 < osum (rows.map (·.totalRevenue)) := lt_of_le_of_ne htot0 (Ne.symm hne)
    have hpct : (calculate_primary_kpis rows).revenue_risk_percentage
        = some (round2 (osum ((churnedRows rows).map (·.totalRevenue))
            / osum (rows.map (·.totalRevenue)) * 100)) := by
      show (if osum (rows.map (·.totalRevenue)) = 0 then none
          else some (round2 (osum ((churnedRows rows).map (·.totalRevenue))
            / osum (rows.map (·.totalRevenue)) * 100))) = _
      rw [if_neg hne]
    refine ⟨_, hpct, ?_, ?_⟩
    · exact round2_nonneg (by positivity)
    · have hfrac : osum ((churnedRows rows).map (·.totalRevenue))
          / osum (rows.map (·.totalRevenue)) ≤ 1 := by
        rw [div_le_one htpos]
        exact hle
      have h100 := round2_le_natCast 100
        (q := osum ((churnedRows rows).map (·.totalRevenue))
          / osum (rows.map (·.totalRevenue)) * 100)
        (by push_cast; nlinarith)
      simpa using h100

/-- Witness for C7 (amended) on the 3-row sample table (all revenues 100):
rate bounds for the one-state group and the revenue comparisons. -/
theorem churn_rate_and_revenue_bounds_witness :
    (0 ≤ (geoAggRow exampleRows).churn_rate ∧ (geoAggRow exampleRows).churn_rate ≤ 100) ∧
    (calculate_primary_kpis exampleRows).revenue_at_risk
      ≤ (calculate_primary_kpis exampleRows).total_revenue := by
  have h := churn_rate_and_revenue_bounds
  exact ⟨(h.1 exampleRows (by decide)).2.1,
         (h.2 exampleRows (by decide)).1⟩

/-- C6: running the full pipeline on a freshly loaded table that lacks
the `Reasons_for_Churn` column still reports overall success (it only
requires a loaded table), stores every other analysis, leaves the
`churn_reasons` key absent, and emits the warning. -/
theorem run_all_without_reasons_column (d : DataFrame) (h : d.hasReasonsCol = false) :
    (run_complete_analysis (loadState d)).2.1 = true ∧
    (run_complete_analysis (loadState d)).1.analysis_results.churn_reasons = none ∧
    ((run_complete_analysis (loadState d)).1.analysis_results.primary_kpis).isSome ∧
    ((run_complete_analysis (loadState d)).1.analysis_results.satisfaction_analysis).isSome ∧
    ((run_complete_analysis (loadState d)).1.analysis_results.geographic_analysis).isSome ∧
    ((run_complete_analysis (loadState d)).1.analysis_results.device_analysis).isSome ∧
    ((run_complete_analysis (loadState d)).1.analysis_results.segmentation_analysis).isSome ∧
    ((run_complete_analysis (loadState d)).1.analysis_results.predictive_analytics).isSome ∧
    reasonsWarning ∈ (run_complete_analysis (loadState d)).2.2 := by
  rcases d with ⟨rows, hR, ag, tg⟩
  simp only at h
  subst h
  simp [run_complete_analysis, loadState, AnalysisResults.empty,
    calculate_primary_kpis_op, satisfaction_churn_analysis_op, geographic_analysis_op,
    device_performance_analysis_op, customer_segmentation_analysis_op,
    churn_reasons_analysis_op, predictive_analytics_op]

/-- Witness for C6: the 3-row table loaded without a `Reasons_for_Churn`
column. -/
theorem run_all_without_reasons_column_witness :
    (run_complete_analysis (loadState noReasonsDf)).2.1 = true ∧
    (run_complete_analysis (loadState noReasonsDf)).1.analysis_results.churn_reasons = none := by
  have h := run_all_without_reasons_column noReasonsDf (by decide)
  exact ⟨h.1, h.2.1⟩

/-- C8: `run_complete_analysis` is idempotent on the whole analyzer
state: a second run on the unchanged loaded table recomputes every
result from the base rows and overwrites the same keys with the same
values, so the result mapping (indeed the whole state, flag and warnings
included) is identical. -/
theorem run_complete_analysis_idempotent (st : AnalyzerState) :
    run_complete_analysis (run_complete_analysis st).1 = run_complete_analysis st := by
  rcases st with ⟨df, res⟩
  rcases df with _ | d
  · rfl
  · rcases d with ⟨rows, hR, ag, tg⟩
    cases hR <;> rfl

/-- C10: `customer_segmentation_analysis` is the only operation that
mutates the loaded table, and it only adds the two derived columns
`Age_Group` and `Tenure_Group` (computed from the base rows, which it
leaves untouched along with the rest of the frame); every other analysis
operation leaves the loaded table exactly as it was. -/
theorem analysis_ops_frame (st : AnalyzerState) :
    ((customer_segmentation_analysis_op st).df = st.df.map fun d =>
      { d with
          ageGroupCol := some (d.rows.map fun r => ageGroup r.age)
          tenureGroupCol := some (d.rows.map fun r => tenureGroup r.tenure) }) ∧
    ((customer_segmentation_analysis_op st).df.map DataFrame.rows
      = st.df.map DataFrame.rows) ∧
    ((customer_segmentation_analysis_op st).df.map DataFrame.hasReasonsCol
      = st.df.map DataFrame.hasReasonsCol) ∧
    (calculate_primary_kpis_op st).df = st.df ∧
    (satisfaction_churn_analysis_op st).df = st.df ∧
    (geographic_analysis_op st).df = st.df ∧
    (device_performance_analysis_op st).df = st.df ∧
    (churn_reasons_analysis_op st).df = st.df ∧
    (predictive_analytics_op st).df = st.df := by
  rcases st with ⟨df, res⟩
  rcases df with _ | d
  · exact ⟨rfl, rfl, rfl, rfl, rfl, rfl, rfl, rfl, rfl⟩
  · refine ⟨rfl, rfl, rfl, rfl, rfl, rfl, rfl, ?_, rfl⟩
    show (churn_reasons_analysis_op ⟨some d, res⟩).df = some d
    unfold churn_reasons_analysis_op
    by_cases h : d.hasReasonsCol <;> simp [h]
